import Mathlib

/-!
Verification of the SIRD / SLIRD epidemic simulators
(src/MODELO_SIRD.py and src/MODELO_SLIRD.py).

The derivative functions `sird_model` and `slird_model` and the drivers
`update_graph` are translated from the Python source; real-valued arithmetic
is embedded generically over a field and instantiated at `ℝ` in the theorems.
The source delegates numerical integration to `scipy.integrate.odeint` and
grid construction to `np.linspace`, both external library code; those two
pieces are modelled from the spec (doc comments on `odeint`, `rk4Step` and
`linspace` say exactly what is modelled).  A second, float-level model
(`PyFloat`, carrying NaN and the infinities) embeds the drivers once more to
settle the validation claim, which is about non-finite inputs that `ℝ`
cannot represent.
-/

/-- StateVector of the SIRD variant: the tuple (S, I, R) the source unpacks
from `y` in `sird_model`. -/
structure SirdState (K : Type) where
  S : K
  I : K
  R : K

/-- StateVector of the SLIRD variant: the tuple (S, L, I, R) the source
unpacks from `y` in `slird_model`. -/
structure SlirdState (K : Type) where
  S : K
  L : K
  I : K
  R : K

/-- Sum of the compartments of a SIRD state (the population mass). -/
def SirdState.total {K : Type} [Field K] (y : SirdState K) : K :=
  y.S + y.I + y.R

/-- Sum of the compartments of a SLIRD state (the population mass). -/
def SlirdState.total {K : Type} [Field K] (y : SlirdState K) : K :=
  y.S + y.L + y.I + y.R

/-- `sird_model` from src/MODELO_SIRD.py lines 15-21: the SIRD derivative
function.  `y` is the state, `t` the (unused) time argument, and the
parameters follow in the source's order beta, rho, delta, alpha, lambda_. -/
def sird_model {K : Type} [Field K] (y : SirdState K) (t : K)
    (beta rho delta alpha lambda_ : K) : SirdState K :=
  let dSdt := alpha - beta * y.S * y.I + lambda_ * y.R
  let dIdt := beta * y.S * y.I - delta * y.I - rho * y.I
  let dRdt := rho * y.I - lambda_ * y.R
  ⟨dSdt, dIdt, dRdt⟩

/-- `slird_model` from src/MODELO_SLIRD.py lines 19-25: the SLIRD derivative
function, with the latency parameter `gamma` appended to the SIRD ones. -/
def slird_model {K : Type} [Field K] (y : SlirdState K) (t : K)
    (beta rho delta alpha lambda_ gamma : K) : SlirdState K :=
  let dSdt := alpha - beta * y.S * y.I + lambda_ * y.R
  let dLdt := beta * y.S * y.I - gamma * y.L
  let dIdt := gamma * y.L - delta * y.I - rho * y.I
  let dRdt := rho * y.I - lambda_ * y.R
  ⟨dSdt, dLdt, dIdt, dRdt⟩

/-- Modelled from the spec: `np.linspace(a, b, n)` as the source calls it,
"n evenly spaced points over [a, b]" endpoint included, the i-th point being
`a + i * (b - a) / (n - 1)`.  numpy itself is external library code. -/
def linspace {K : Type} [Field K] (a b : K) (n : ℕ) : List K :=
  (List.range n).map fun (i : ℕ) => a + (i : K) * (b - a) / ((n : K) - 1)

/-- Componentwise addition of SIRD states (the vector-space structure the
integrator needs). -/
def SirdState.add {K : Type} [Field K] (x y : SirdState K) : SirdState K :=
  ⟨x.S + y.S, x.I + y.I, x.R + y.R⟩

/-- Componentwise scalar multiplication of SIRD states. -/
def SirdState.smul {K : Type} [Field K] (c : K) (x : SirdState K) : SirdState K :=
  ⟨c * x.S, c * x.I, c * x.R⟩

/-- Componentwise addition of SLIRD states. -/
def SlirdState.add {K : Type} [Field K] (x y : SlirdState K) : SlirdState K :=
  ⟨x.S + y.S, x.L + y.L, x.I + y.I, x.R + y.R⟩

/-- Componentwise scalar multiplication of SLIRD states. -/
def SlirdState.smul {K : Type} [Field K] (c : K) (x : SlirdState K) : SlirdState K :=
  ⟨c * x.S, c * x.L, c * x.I, c * x.R⟩

/-- Modelled from the spec: one step of the fixed-step 4th-order Runge-Kutta
method, the spec's "acceptable simpler substitute" for the ODE Integrator
component.  The source delegates integration to the external library function
`scipy.integrate.odeint`, whose code is not part of this repository. -/
def rk4Step {K σ : Type} [Field K] (add : σ → σ → σ) (smul : K → σ → σ)
    (f : σ → K → σ) (t h : K) (y : σ) : σ :=
  let k1 := f y t
  let k2 := f (add y (smul (h / 2) k1)) (t + h / 2)
  let k3 := f (add y (smul (h / 2) k2)) (t + h / 2)
  let k4 := f (add y (smul h k3)) (t + h)
  add y (smul (h / 6) (add k1 (add (smul 2 k2) (add (smul 2 k3) k4))))

/-- Modelled from the spec: the states at the grid points after the first,
each obtained from the previous one by one integration step over the
corresponding grid interval. -/
def odeintAux {K σ : Type} [Field K] (add : σ → σ → σ) (smul : K → σ → σ)
    (f : σ → K → σ) : σ → K → List K → List σ
  | _, _, [] => []
  | y, t, t1 :: ts =>
    let y1 := rk4Step add smul f t (t1 - t) y
    y1 :: odeintAux add smul f y1 t1 ts

/-- Modelled from the spec: the ODE Integrator contract of
`scipy.integrate.odeint` as the source uses it: one state vector per grid
point, in grid order, the first entry being the initial state exactly (no
integration step at t0). -/
def odeint {K σ : Type} [Field K] (f : σ → K → σ) (y0 : σ) (grid : List K)
    (add : σ → σ → σ) (smul : K → σ → σ) : List σ :=
  match grid with
  | [] => []
  | t0 :: ts => y0 :: odeintAux add smul f y0 t0 ts

/-- Trajectory of the SIRD pipeline: the time grid and the three compartment
series the driver extracts from the solution (the `x`/`y` data of the figure
`update_graph` returns). -/
structure SirdTrajectory (T V : Type) where
  t : List T
  S : List V
  I : List V
  R : List V

/-- Trajectory of the SLIRD pipeline. -/
structure SlirdTrajectory (T V : Type) where
  t : List T
  S : List V
  L : List V
  I : List V
  R : List V

namespace SIRD

/-- `update_graph` from src/MODELO_SIRD.py lines 136-161: the SIRD simulation
driver.  It sets the fixed initial condition, builds the time grid, hands the
derivative function and the parameters to the integrator and packages the
compartment series; the figure styling around that data carries no
computational content and is not modelled. -/
def update_graph {K : Type} [Field K] (beta rho delta alpha lambda_ : K) :
    SirdTrajectory K K :=
  let y0 : SirdState K := ⟨0.99, 0.01, 0.0⟩
  let t := linspace (0 : K) 160 160
  let solution :=
    odeint (fun y u => sird_model y u beta rho delta alpha lambda_) y0 t
      SirdState.add SirdState.smul
  ⟨t, solution.map SirdState.S, solution.map SirdState.I, solution.map SirdState.R⟩

end SIRD

namespace SLIRD

/-- `update_graph` from src/MODELO_SLIRD.py lines 149-182: the SLIRD
simulation driver. -/
def update_graph {K : Type} [Field K] (beta rho delta alpha lambda_ gamma : K) :
    SlirdTrajectory K K :=
  let y0 : SlirdState K := ⟨0.99, 0.0, 0.01, 0.0⟩
  let t := linspace (0 : K) 160 160
  let solution :=
    odeint (fun y u => slird_model y u beta rho delta alpha lambda_ gamma) y0 t
      SlirdState.add SlirdState.smul
  ⟨t, solution.map SlirdState.S, solution.map SlirdState.L,
    solution.map SlirdState.I, solution.map SlirdState.R⟩

end SLIRD

/-- An IEEE-style floating-point value as the Dash number inputs can deliver
it to `update_graph`: NaN, one of the infinities, or a finite value (finite
magnitudes are represented exactly as rationals).  This second, float-level
model exists because the validation claim is about non-finite parameter
values, which the real-number embedding cannot represent. -/
inductive PyFloat where
  | nan : PyFloat
  | inf : PyFloat
  | ninf : PyFloat
  | fin : ℚ → PyFloat

/-- Whether a float value is finite (neither NaN nor infinite). -/
def PyFloat.isFinite : PyFloat → Bool
  | .fin _ => true
  | _ => false

/-- IEEE addition on the float model: NaN propagates, opposite infinities
give NaN. -/
def PyFloat.add : PyFloat → PyFloat → PyFloat
  | .nan, _ => .nan
  | _, .nan => .nan
  | .inf, .ninf => .nan
  | .ninf, .inf => .nan
  | .inf, _ => .inf
  | _, .inf => .inf
  | .ninf, _ => .ninf
  | _, .ninf => .ninf
  | .fin a, .fin b => .fin (a + b)

/-- IEEE negation on the float model. -/
def PyFloat.neg : PyFloat → PyFloat
  | .nan => .nan
  | .inf => .ninf
  | .ninf => .inf
  | .fin a => .fin (-a)

/-- IEEE subtraction on the float model. -/
def PyFloat.sub (x y : PyFloat) : PyFloat :=
  x.add y.neg

/-- IEEE multiplication on the float model: NaN propagates, infinity times
zero is NaN, otherwise signs combine. -/
def PyFloat.mul : PyFloat → PyFloat → PyFloat
  | .nan, _ => .nan
  | _, .nan => .nan
  | .inf, .inf => .inf
  | .inf, .ninf => .ninf
  | .ninf, .inf => .ninf
  | .ninf, .ninf => .inf
  | .inf, .fin b => if 0 < b then .inf else if b < 0 then .ninf else .nan
  | .fin a, .inf => if 0 < a then .inf else if a < 0 then .ninf else .nan
  | .ninf, .fin b => if 0 < b then .ninf else if b < 0 then .inf else .nan
  | .fin a, .ninf => if 0 < a then .ninf else if a < 0 then .inf else .nan
  | .fin a, .fin b => .fin (a * b)

instance : Add PyFloat := ⟨PyFloat.add⟩

instance : Sub PyFloat := ⟨PyFloat.sub⟩

instance : Mul PyFloat := ⟨PyFloat.mul⟩

/-- Multiplication of a float state component by a finite scalar coming from
the time grid (the step fractions of the integrator). -/
def PyFloat.qsmul (q : ℚ) : PyFloat → PyFloat
  | .nan => .nan
  | .inf => if 0 < q then .inf else if q < 0 then .ninf else .nan
  | .ninf => if 0 < q then .ninf else if q < 0 then .inf else .nan
  | .fin a => .fin (q * a)

/-- Componentwise float addition of SIRD states. -/
def pySirdAdd (x y : SirdState PyFloat) : SirdState PyFloat :=
  ⟨x.S + y.S, x.I + y.I, x.R + y.R⟩

/-- Componentwise float scalar multiplication of SIRD states. -/
def pySirdSmul (q : ℚ) (x : SirdState PyFloat) : SirdState PyFloat :=
  ⟨PyFloat.qsmul q x.S, PyFloat.qsmul q x.I, PyFloat.qsmul q x.R⟩

/-- Componentwise float addition of SLIRD states. -/
def pySlirdAdd (x y : SlirdState PyFloat) : SlirdState PyFloat :=
  ⟨x.S + y.S, x.L + y.L, x.I + y.I, x.R + y.R⟩

/-- Componentwise float scalar multiplication of SLIRD states. -/
def pySlirdSmul (q : ℚ) (x : SlirdState PyFloat) : SlirdState PyFloat :=
  ⟨PyFloat.qsmul q x.S, PyFloat.qsmul q x.L, PyFloat.qsmul q x.I,
    PyFloat.qsmul q x.R⟩

namespace SIRD

/-- `sird_model` over the float model: the same expressions as `sird_model`,
evaluated in IEEE-style float arithmetic. -/
def sird_modelF (y : SirdState PyFloat) (t : ℚ)
    (beta rho delta alpha lambda_ : PyFloat) : SirdState PyFloat :=
  let dSdt := alpha - beta * y.S * y.I + lambda_ * y.R
  let dIdt := beta * y.S * y.I - delta * y.I - rho * y.I
  let dRdt := rho * y.I - lambda_ * y.R
  ⟨dSdt, dIdt, dRdt⟩

/-- `update_graph` of src/MODELO_SIRD.py over the float model: the callback
body has no validation branch of any kind — whatever the parameter values
are, finite or not, it builds the grid, invokes the integrator and returns
the packaged trajectory. -/
def update_graphF (beta rho delta alpha lambda_ : PyFloat) :
    SirdTrajectory ℚ PyFloat :=
  let y0 : SirdState PyFloat := ⟨.fin 0.99, .fin 0.01, .fin 0⟩
  let t := linspace (0 : ℚ) 160 160
  let solution :=
    odeint (fun y u => sird_modelF y u beta rho delta alpha lambda_) y0 t
      pySirdAdd pySirdSmul
  ⟨t, solution.map SirdState.S, solution.map SirdState.I, solution.map SirdState.R⟩

end SIRD

namespace SLIRD

/-- `slird_model` over the float model. -/
def slird_modelF (y : SlirdState PyFloat) (t : ℚ)
    (beta rho delta alpha lambda_ gamma : PyFloat) : SlirdState PyFloat :=
  let dSdt := alpha - beta * y.S * y.I + lambda_ * y.R
  let dLdt := beta * y.S * y.I - gamma * y.L
  let dIdt := gamma * y.L - delta * y.I - rho * y.I
  let dRdt := rho * y.I - lambda_ * y.R
  ⟨dSdt, dLdt, dIdt, dRdt⟩

/-- `update_graph` of src/MODELO_SLIRD.py over the float model: no validation
branch exists in the callback body. -/
def update_graphF (beta rho delta alpha lambda_ gamma : PyFloat) :
    SlirdTrajectory ℚ PyFloat :=
  let y0 : SlirdState PyFloat := ⟨.fin 0.99, .fin 0, .fin 0.01, .fin 0⟩
  let t := linspace (0 : ℚ) 160 160
  let solution :=
    odeint (fun y u => slird_modelF y u beta rho delta alpha lambda_ gamma) y0 t
      pySlirdAdd pySlirdSmul
  ⟨t, solution.map SlirdState.S, solution.map SlirdState.L,
    solution.map SlirdState.I, solution.map SlirdState.R⟩

end SLIRD

/-- The integrator emits one state per grid point after the first. -/
theorem odeintAux_length {K σ : Type} [Field K] (add : σ → σ → σ) (smul : K → σ → σ)
    (f : σ → K → σ) (ts : List K) : ∀ (y : σ) (t : K),
    (odeintAux add smul f y t ts).length = ts.length := by
  induction ts with
  | nil => intro y t; rfl
  | cons t1 ts ih => intro y t; simp only [odeintAux, List.length_cons, ih]

/-- The integrator emits exactly one state per grid point. -/
theorem odeint_length {K σ : Type} [Field K] (f : σ → K → σ) (y0 : σ) (grid : List K)
    (add : σ → σ → σ) (smul : K → σ → σ) :
    (odeint f y0 grid add smul).length = grid.length := by
  cases grid with
  | nil => rfl
  | cons t0 ts => simp only [odeint, List.length_cons, odeintAux_length]

/-- A compartment series extracted from the integrator output has one value
per grid point. -/
theorem odeint_map_length {K σ V : Type} [Field K] (f : σ → K → σ) (y0 : σ)
    (grid : List K) (add : σ → σ → σ) (smul : K → σ → σ) (g : σ → V) :
    ((odeint f y0 grid add smul).map g).length = grid.length := by
  rw [List.length_map, odeint_length]

/-- On a nonempty grid, a compartment series extracted from the integrator
output starts with the corresponding component of the initial state. -/
theorem odeint_map_head {K σ V : Type} [Field K] (f : σ → K → σ) (y0 : σ)
    (grid : List K) (add : σ → σ → σ) (smul : K → σ → σ) (g : σ → V) (x : K)
    (hx : grid.head? = some x) :
    ((odeint f y0 grid add smul).map g).head? = some (g y0) := by
  cases grid with
  | nil => simp at hx
  | cons t0 ts => rfl

/-- A predicate preserved by the integration step holds along the whole tail
of the trajectory. -/
theorem odeintAux_forall {K σ : Type} [Field K] (add : σ → σ → σ) (smul : K → σ → σ)
    (f : σ → K → σ) (P : σ → Prop)
    (hstep : ∀ (t h : K) (y : σ), P y → P (rk4Step add smul f t h y)) (ts : List K) :
    ∀ (y : σ) (t : K), P y → List.Forall P (odeintAux add smul f y t ts) := by
  induction ts with
  | nil => intro y t _; exact trivial
  | cons t1 ts ih =>
    intro y t hy
    rw [odeintAux, List.forall_cons]
    exact ⟨hstep _ _ _ hy, ih _ _ (hstep _ _ _ hy)⟩

/-- A predicate of the initial state preserved by the integration step holds
at every point of the trajectory. -/
theorem odeint_forall {K σ : Type} [Field K] (f : σ → K → σ) (y0 : σ) (grid : List K)
    (add : σ → σ → σ) (smul : K → σ → σ) (P : σ → Prop) (h0 : P y0)
    (hstep : ∀ (t h : K) (y : σ), P y → P (rk4Step add smul f t h y)) :
    List.Forall P (odeint f y0 grid add smul) := by
  cases grid with
  | nil => exact trivial
  | cons t0 ts =>
    rw [odeint, List.forall_cons]
    exact ⟨h0, odeintAux_forall add smul f P hstep ts y0 t0 h0⟩

/-- `linspace` produces exactly n points. -/
theorem linspace_length {K : Type} [Field K] (a b : K) (n : ℕ) :
    (linspace a b n).length = n := by
  rw [linspace, List.length_map, List.length_range]

/-- A nonempty `linspace` starts at its left endpoint. -/
theorem linspace_head {K : Type} [Field K] (a b : K) (n : ℕ) :
    (linspace a b (n + 1)).head? = some a := by
  rw [linspace, List.range_succ_eq_map]
  simp

/-- The source's time grid ends at 160. -/
theorem tgrid_last : (linspace (0 : ℝ) 160 160).getLast? = some 160 := by
  rw [linspace, List.getLast?_eq_getElem?]
  rw [List.length_map, List.length_range]
  rw [List.getElem?_map]
  rw [List.getElem?_range (by norm_num)]
  norm_num

/-- Closed form of the i-th point of the source's time grid. -/
theorem tgrid_getD (i : ℕ) (h : i < 160) :
    (linspace (0 : ℝ) 160 160).getD i 0 = (i : ℝ) * (160 / 159) := by
  rw [linspace, List.getD_eq_getElem?_getD, List.getElem?_map, List.getElem?_range h]
  show (0 : ℝ) + (i : ℝ) * (160 - 0) / ((160 : ℕ) - 1 : ℝ) = (i : ℝ) * (160 / 159)
  push_cast
  ring

/-- One RK4 step of the SIRD system started at a state with no infected
keeps the infected compartment at zero. -/
theorem sird_rk4_preserves_zero_I (beta rho delta alpha lambda_ t h : ℝ)
    (y : SirdState ℝ) (hI : y.I = 0) :
    (rk4Step SirdState.add SirdState.smul
      (fun z u => sird_model z u beta rho delta alpha lambda_) t h y).I = 0 := by
  obtain ⟨S, I, R⟩ := y
  simp only at hI
  subst hI
  simp only [rk4Step, sird_model, SirdState.add, SirdState.smul]
  ring

/-- One RK4 step of the SLIRD system started at a state with no latent and
no infected keeps both compartments at zero. -/
theorem slird_rk4_preserves_zero_LI (beta rho delta alpha lambda_ gamma t h : ℝ)
    (y : SlirdState ℝ) (hL : y.L = 0) (hI : y.I = 0) :
    (rk4Step SlirdState.add SlirdState.smul
      (fun z u => slird_model z u beta rho delta alpha lambda_ gamma) t h y).L = 0 ∧
    (rk4Step SlirdState.add SlirdState.smul
      (fun z u => slird_model z u beta rho delta alpha lambda_ gamma) t h y).I = 0 := by
  obtain ⟨S, L, I, R⟩ := y
  simp only at hL hI
  subst hL
  subst hI
  constructor <;>
    (simp only [rk4Step, slird_model, SlirdState.add, SlirdState.smul]; ring)

/-- Shape of the SIRD driver output: 160 samples per series, the grid
starting at 0 and each series starting at its initial-condition component. -/
theorem sird_shape (beta rho delta alpha lambda_ : ℝ) :
    (SIRD.update_graph beta rho delta alpha lambda_).t.length = 160 ∧
    (SIRD.update_graph beta rho delta alpha lambda_).S.length = 160 ∧
    (SIRD.update_graph beta rho delta alpha lambda_).I.length = 160 ∧
    (SIRD.update_graph beta rho delta alpha lambda_).R.length = 160 ∧
    (SIRD.update_graph beta rho delta alpha lambda_).t.head? = some 0 ∧
    (SIRD.update_graph beta rho delta alpha lambda_).S.head? = some 0.99 ∧
    (SIRD.update_graph beta rho delta alpha lambda_).I.head? = some 0.01 ∧
    (SIRD.update_graph beta rho delta alpha lambda_).R.head? = some 0.0 := by
  refine ⟨?_, ?_, ?_, ?_, ?_, ?_, ?_, ?_⟩
  · simp only [SIRD.update_graph]
    exact linspace_length 0 160 160
  · simp only [SIRD.update_graph]
    rw [odeint_map_length, linspace_length]
  · simp only [SIRD.update_graph]
    rw [odeint_map_length, linspace_length]
  · simp only [SIRD.update_graph]
    rw [odeint_map_length, linspace_length]
  · simp only [SIRD.update_graph]
    exact linspace_head 0 160 159
  · simp only [SIRD.update_graph]
    exact odeint_map_head _ _ _ _ _ _ 0 (linspace_head 0 160 159)
  · simp only [SIRD.update_graph]
    exact odeint_map_head _ _ _ _ _ _ 0 (linspace_head 0 160 159)
  · simp only [SIRD.update_graph]
    exact odeint_map_head _ _ _ _ _ _ 0 (linspace_head 0 160 159)

/-- Shape of the SLIRD driver output. -/
theorem slird_shape (beta rho delta alpha lambda_ gamma : ℝ) :
    (SLIRD.update_graph beta rho delta alpha lambda_ gamma).t.length = 160 ∧
    (SLIRD.update_graph beta rho delta alpha lambda_ gamma).S.length = 160 ∧
    (SLIRD.update_graph beta rho delta alpha lambda_ gamma).L.length = 160 ∧
    (SLIRD.update_graph beta rho delta alpha lambda_ gamma).I.length = 160 ∧
    (SLIRD.update_graph beta rho delta alpha lambda_ gamma).R.length = 160 ∧
    (SLIRD.update_graph beta rho delta alpha lambda_ gamma).t.head? = some 0 ∧
    (SLIRD.update_graph beta rho delta alpha lambda_ gamma).S.head? = some 0.99 ∧
    (SLIRD.update_graph beta rho delta alpha lambda_ gamma).L.head? = some 0.0 ∧
    (SLIRD.update_graph beta rho delta alpha lambda_ gamma).I.head? = some 0.01 ∧
    (SLIRD.update_graph beta rho delta alpha lambda_ gamma).R.head? = some 0.0 := by
  refine ⟨?_, ?_, ?_, ?_, ?_, ?_, ?_, ?_, ?_, ?_⟩
  · simp only [SLIRD.update_graph]
    exact linspace_length 0 160 160
  · simp only [SLIRD.update_graph]
    rw [odeint_map_length, linspace_length]
  · simp only [SLIRD.update_graph]
    rw [odeint_map_length, linspace_length]
  · simp only [SLIRD.update_graph]
    rw [odeint_map_length, linspace_length]
  · simp only [SLIRD.update_graph]
    rw [odeint_map_length, linspace_length]
  · simp only [SLIRD.update_graph]
    exact linspace_head 0 160 159
  · simp only [SLIRD.update_graph]
    exact odeint_map_head _ _ _ _ _ _ 0 (linspace_head 0 160 159)
  · simp only [SLIRD.update_graph]
    exact odeint_map_head _ _ _ _ _ _ 0 (linspace_head 0 160 159)
  · simp only [SLIRD.update_graph]
    exact odeint_map_head _ _ _ _ _ _ 0 (linspace_head 0 160 159)
  · simp only [SLIRD.update_graph]
    exact odeint_map_head _ _ _ _ _ _ 0 (linspace_head 0 160 159)

/-- Shape of the float-level SIRD driver output: a full trajectory comes back
whatever the parameter values are. -/
theorem sird_shapeF (beta rho delta alpha lambda_ : PyFloat) :
    (SIRD.update_graphF beta rho delta alpha lambda_).t.length = 160 ∧
    (SIRD.update_graphF beta rho delta alpha lambda_).S.length = 160 ∧
    (SIRD.update_graphF beta rho delta alpha lambda_).I.length = 160 ∧
    (SIRD.update_graphF beta rho delta alpha lambda_).R.length = 160 ∧
    (SIRD.update_graphF beta rho delta alpha lambda_).S.head? = some (.fin 0.99) ∧
    (SIRD.update_graphF beta rho delta alpha lambda_).I.head? = some (.fin 0.01) ∧
    (SIRD.update_graphF beta rho delta alpha lambda_).R.head? = some (.fin 0) := by
  refine ⟨?_, ?_, ?_, ?_, ?_, ?_, ?_⟩
  · simp only [SIRD.update_graphF]
    exact linspace_length 0 160 160
  · simp only [SIRD.update_graphF]
    rw [odeint_map_length, linspace_length]
  · simp only [SIRD.update_graphF]
    rw [odeint_map_length, linspace_length]
  · simp only [SIRD.update_graphF]
    rw [odeint_map_length, linspace_length]
  · simp only [SIRD.update_graphF]
    exact odeint_map_head _ _ _ _ _ _ 0 (linspace_head 0 160 159)
  · simp only [SIRD.update_graphF]
    exact odeint_map_head _ _ _ _ _ _ 0 (linspace_head 0 160 159)
  · simp only [SIRD.update_graphF]
    exact odeint_map_head _ _ _ _ _ _ 0 (linspace_head 0 160 159)

/-- Shape of the float-level SLIRD driver output. -/
theorem slird_shapeF (beta rho delta alpha lambda_ gamma : PyFloat) :
    (SLIRD.update_graphF beta rho delta alpha lambda_ gamma).t.length = 160 ∧
    (SLIRD.update_graphF beta rho delta alpha lambda_ gamma).S.length = 160 ∧
    (SLIRD.update_graphF beta rho delta alpha lambda_ gamma).L.length = 160 ∧
    (SLIRD.update_graphF beta rho delta alpha lambda_ gamma).I.length = 160 ∧
    (SLIRD.update_graphF beta rho delta alpha lambda_ gamma).R.length = 160 ∧
    (SLIRD.update_graphF beta rho delta alpha lambda_ gamma).S.head? = some (.fin 0.99) ∧
    (SLIRD.update_graphF beta rho delta alpha lambda_ gamma).L.head? = some (.fin 0) ∧
    (SLIRD.update_graphF beta rho delta alpha lambda_ gamma).I.head? = some (.fin 0.01) ∧
    (SLIRD.update_graphF beta rho delta alpha lambda_ gamma).R.head? = some (.fin 0) := by
  refine ⟨?_, ?_, ?_, ?_, ?_, ?_, ?_, ?_, ?_⟩
  · simp only [SLIRD.update_graphF]
    exact linspace_length 0 160 160
  · simp only [SLIRD.update_graphF]
    rw [odeint_map_length, linspace_length]
  · simp only [SLIRD.update_graphF]
    rw [odeint_map_length, linspace_length]
  · simp only [SLIRD.update_graphF]
    rw [odeint_map_length, linspace_length]
  · simp only [SLIRD.update_graphF]
    rw [odeint_map_length, linspace_length]
  · simp only [SLIRD.update_graphF]
    exact odeint_map_head _ _ _ _ _ _ 0 (linspace_head 0 160 159)
  · simp only [SLIRD.update_graphF]
    exact odeint_map_head _ _ _ _ _ _ 0 (linspace_head 0 160 159)
  · simp only [SLIRD.update_graphF]
    exact odeint_map_head _ _ _ _ _ _ 0 (linspace_head 0 160 159)
  · simp only [SLIRD.update_graphF]
    exact odeint_map_head _ _ _ _ _ _ 0 (linspace_head 0 160 159)

/-- C1: for every state (S, I, R), every time t and all parameters, the SIRD
derivative function returns exactly the vector (alpha − beta·S·I + lambda·R,
beta·S·I − delta·I − rho·I, rho·I − lambda·R), in that compartment order. -/
theorem sird_derivative_formula (S I R t beta rho delta alpha lambda_ : ℝ) :
    sird_model ⟨S, I, R⟩ t beta rho delta alpha lambda_ =
      ⟨alpha - beta * S * I + lambda_ * R, beta * S * I - delta * I - rho * I,
        rho * I - lambda_ * R⟩ := rfl

/-- C2: for every state (S, L, I, R), every time t and all parameters, the
SLIRD derivative function returns exactly the vector
(alpha − beta·S·I + lambda·R, beta·S·I − gamma·L, gamma·L − delta·I − rho·I,
rho·I − lambda·R), in that compartment order. -/
theorem slird_derivative_formula (S L I R t beta rho delta alpha lambda_ gamma : ℝ) :
    slird_model ⟨S, L, I, R⟩ t beta rho delta alpha lambda_ gamma =
      ⟨alpha - beta * S * I + lambda_ * R, beta * S * I - gamma * L,
        gamma * L - delta * I - rho * I, rho * I - lambda_ * R⟩ := rfl

/-- C3 counterexample: at the default state (S, I, R) = (0.99, 0.01, 0) with
beta = 0.3, rho = 0.1, delta = 0.05 and alpha = lambda = 0, the components of
the SIRD derivative sum to −delta·I = −0.0005, not 0: with the mortality
outflow delta·I nonzero the system is not closed. -/
theorem mass_balance_fails_at_defaults :
    SirdState.total (sird_model (⟨0.99, 0.01, 0⟩ : SirdState ℝ) 0 0.3 0.1 0.05 0 0) ≠ 0 := by
  simp only [sird_model, SirdState.total]
  norm_num

/-- C3 (amended): with alpha = 0, lambda = 0 and additionally delta = 0, the
system is closed: the components of the derivative returned by either
variant's derivative function sum to zero for every state and time. -/
theorem mass_balance_closed_without_mortality (S L I R t beta rho gamma : ℝ) :
    SirdState.total (sird_model ⟨S, I, R⟩ t beta rho 0 0 0) = 0 ∧
    SlirdState.total (slird_model ⟨S, L, I, R⟩ t beta rho 0 0 0 gamma) = 0 := by
  constructor <;>
    (simp only [sird_model, slird_model, SirdState.total, SlirdState.total]; ring)

/-- C4 counterexample: a request with beta = NaN (the other parameters at
their defaults) is not rejected — the SIRD driver runs the integration and
returns a full 160-point trajectory whose first susceptible sample is the
initial condition. -/
theorem nan_request_not_rejected :
    PyFloat.isFinite PyFloat.nan = false ∧
    (SIRD.update_graphF PyFloat.nan (PyFloat.fin 0.1) (PyFloat.fin 0.05)
        (PyFloat.fin 0.01) (PyFloat.fin 0.01)).S.length = 160 ∧
    (SIRD.update_graphF PyFloat.nan (PyFloat.fin 0.1) (PyFloat.fin 0.05)
        (PyFloat.fin 0.01) (PyFloat.fin 0.01)).S.head? = some (.fin 0.99) :=
  ⟨rfl, (sird_shapeF _ _ _ _ _).2.1, (sird_shapeF _ _ _ _ _).2.2.2.2.1⟩

/-- C4 (amended): the drivers perform no parameter validation at all: for
every parameter assignment, including ones containing NaN or infinite values,
they build the grid, invoke the integrator and return a full 160-point
trajectory starting at the initial condition — no rejection path exists. -/
theorem driver_never_rejects (beta rho delta alpha lambda_ gamma : PyFloat) :
    (SIRD.update_graphF beta rho delta alpha lambda_).t.length = 160 ∧
    (SIRD.update_graphF beta rho delta alpha lambda_).S.length = 160 ∧
    (SIRD.update_graphF beta rho delta alpha lambda_).I.length = 160 ∧
    (SIRD.update_graphF beta rho delta alpha lambda_).R.length = 160 ∧
    (SIRD.update_graphF beta rho delta alpha lambda_).S.head? = some (.fin 0.99) ∧
    (SLIRD.update_graphF beta rho delta alpha lambda_ gamma).t.length = 160 ∧
    (SLIRD.update_graphF beta rho delta alpha lambda_ gamma).S.length = 160 ∧
    (SLIRD.update_graphF beta rho delta alpha lambda_ gamma).L.length = 160 ∧
    (SLIRD.update_graphF beta rho delta alpha lambda_ gamma).I.length = 160 ∧
    (SLIRD.update_graphF beta rho delta alpha lambda_ gamma).R.length = 160 ∧
    (SLIRD.update_graphF beta rho delta alpha lambda_ gamma).S.head? = some (.fin 0.99) := by
  obtain ⟨h1, h2, h3, h4, h5, -, -⟩ := sird_shapeF beta rho delta alpha lambda_
  obtain ⟨g1, g2, g3, g4, g5, g6, -, -, -⟩ := slird_shapeF beta rho delta alpha lambda_ gamma
  exact ⟨h1, h2, h3, h4, h5, g1, g2, g3, g4, g5, g6⟩

/-- C5: disease-free equilibrium: with the infected compartment at zero (and,
for SLIRD, the latent one too) the infected (and latent) derivative is zero,
and along the whole integrated trajectory started from such a state the
infected (and latent) compartment stays at zero, on any grid. -/
theorem disease_free_equilibrium
    (beta rho delta alpha lambda_ gamma t S R S0 R0 : ℝ) (grid : List ℝ) :
    (sird_model ⟨S, 0, R⟩ t beta rho delta alpha lambda_).I = 0 ∧
    (slird_model ⟨S, 0, 0, R⟩ t beta rho delta alpha lambda_ gamma).L = 0 ∧
    (slird_model ⟨S, 0, 0, R⟩ t beta rho delta alpha lambda_ gamma).I = 0 ∧
    List.Forall (fun y => y.I = 0)
      (odeint (fun y u => sird_model y u beta rho delta alpha lambda_)
        ⟨S0, 0, R0⟩ grid SirdState.add SirdState.smul) ∧
    List.Forall (fun y => y.L = 0 ∧ y.I = 0)
      (odeint (fun y u => slird_model y u beta rho delta alpha lambda_ gamma)
        ⟨S0, 0, 0, R0⟩ grid SlirdState.add SlirdState.smul) := by
  refine ⟨?_, ?_, ?_, ?_, ?_⟩
  · simp only [sird_model]; ring
  · simp only [slird_model]; ring
  · simp only [slird_model]; ring
  · exact odeint_forall _ _ _ _ _ _ rfl
      (fun u h y hy => sird_rk4_preserves_zero_I beta rho delta alpha lambda_ u h y hy)
  · exact odeint_forall _ _ _ _ _ _ ⟨rfl, rfl⟩
      (fun u h y hy =>
        slird_rk4_preserves_zero_LI beta rho delta alpha lambda_ gamma u h y hy.1 hy.2)

/-- C6: shape invariant: for every parameter set both drivers return exactly
160 samples per compartment series and for the time grid, the grid starts at
0, and the first state equals the supplied initial condition exactly. -/
theorem trajectory_shape_invariant (beta rho delta alpha lambda_ gamma : ℝ) :
    ((SIRD.update_graph beta rho delta alpha lambda_).t.length = 160 ∧
      (SIRD.update_graph beta rho delta alpha lambda_).S.length = 160 ∧
      (SIRD.update_graph beta rho delta alpha lambda_).I.length = 160 ∧
      (SIRD.update_graph beta rho delta alpha lambda_).R.length = 160 ∧
      (SIRD.update_graph beta rho delta alpha lambda_).t.head? = some 0 ∧
      (SIRD.update_graph beta rho delta alpha lambda_).S.head? = some 0.99 ∧
      (SIRD.update_graph beta rho delta alpha lambda_).I.head? = some 0.01 ∧
      (SIRD.update_graph beta rho delta alpha lambda_).R.head? = some 0.0) ∧
    ((SLIRD.update_graph beta rho delta alpha lambda_ gamma).t.length = 160 ∧
      (SLIRD.update_graph beta rho delta alpha lambda_ gamma).S.length = 160 ∧
      (SLIRD.update_graph beta rho delta alpha lambda_ gamma).L.length = 160 ∧
      (SLIRD.update_graph beta rho delta alpha lambda_ gamma).I.length = 160 ∧
      (SLIRD.update_graph beta rho delta alpha lambda_ gamma).R.length = 160 ∧
      (SLIRD.update_graph beta rho delta alpha lambda_ gamma).t.head? = some 0 ∧
      (SLIRD.update_graph beta rho delta alpha lambda_ gamma).S.head? = some 0.99 ∧
      (SLIRD.update_graph beta rho delta alpha lambda_ gamma).L.head? = some 0.0 ∧
      (SLIRD.update_graph beta rho delta alpha lambda_ gamma).I.head? = some 0.01 ∧
      (SLIRD.update_graph beta rho delta alpha lambda_ gamma).R.head? = some 0.0) :=
  ⟨sird_shape beta rho delta alpha lambda_,
    slird_shape beta rho delta alpha lambda_ gamma⟩

/-- C7: determinism: the derivative functions and drivers are pure — two
simulation calls with identical parameter values produce identical
trajectories, and the derivative functions return equal outputs on equal
inputs. -/
theorem simulation_deterministic (b1 r1 d1 a1 l1 g1 b2 r2 d2 a2 l2 g2 : ℝ)
    (hb : b1 = b2) (hr : r1 = r2) (hd : d1 = d2) (ha : a1 = a2) (hl : l1 = l2)
    (hg : g1 = g2) :
    SIRD.update_graph b1 r1 d1 a1 l1 = SIRD.update_graph b2 r2 d2 a2 l2 ∧
    SLIRD.update_graph b1 r1 d1 a1 l1 g1 = SLIRD.update_graph b2 r2 d2 a2 l2 g2 ∧
    (∀ (y : SirdState ℝ) (t : ℝ),
      sird_model y t b1 r1 d1 a1 l1 = sird_model y t b2 r2 d2 a2 l2) ∧
    (∀ (y : SlirdState ℝ) (t : ℝ),
      slird_model y t b1 r1 d1 a1 l1 g1 = slird_model y t b2 r2 d2 a2 l2 g2) := by
  subst hb; subst hr; subst hd; subst ha; subst hl; subst hg
  exact ⟨rfl, rfl, fun _ _ => rfl, fun _ _ => rfl⟩

/-- C7 witness: the determinism theorem applied at the default parameter
values. -/
theorem simulation_deterministic_witness :
    SIRD.update_graph (0.3 : ℝ) 0.1 0.05 0.01 0.01 =
      SIRD.update_graph 0.3 0.1 0.05 0.01 0.01 ∧
    SLIRD.update_graph (0.3 : ℝ) 0.1 0.05 0.01 0.01 0.1 =
      SLIRD.update_graph 0.3 0.1 0.05 0.01 0.01 0.1 :=
  ⟨(simulation_deterministic 0.3 0.1 0.05 0.01 0.01 0.1 0.3 0.1 0.05 0.01 0.01 0.1
      rfl rfl rfl rfl rfl rfl).1,
    (simulation_deterministic 0.3 0.1 0.05 0.01 0.01 0.1 0.3 0.1 0.05 0.01 0.01 0.1
      rfl rfl rfl rfl rfl rfl).2.1⟩

/-- C8: both drivers use their variant's fixed default initial condition —
SIRD (0.99, 0.01, 0), SLIRD (0.99, 0, 0.01, 0), read off at the first
trajectory sample — and in both variants the initial compartments sum to
exactly 1. -/
theorem initial_condition_defaults (beta rho delta alpha lambda_ gamma : ℝ) :
    (SIRD.update_graph beta rho delta alpha lambda_).S.head? = some 0.99 ∧
    (SIRD.update_graph beta rho delta alpha lambda_).I.head? = some 0.01 ∧
    (SIRD.update_graph beta rho delta alpha lambda_).R.head? = some 0.0 ∧
    SirdState.total ⟨0.99, 0.01, 0.0⟩ = (1 : ℝ) ∧
    (SLIRD.update_graph beta rho delta alpha lambda_ gamma).S.head? = some 0.99 ∧
    (SLIRD.update_graph beta rho delta alpha lambda_ gamma).L.head? = some 0.0 ∧
    (SLIRD.update_graph beta rho delta alpha lambda_ gamma).I.head? = some 0.01 ∧
    (SLIRD.update_graph beta rho delta alpha lambda_ gamma).R.head? = some 0.0 ∧
    SlirdState.total ⟨0.99, 0.0, 0.01, 0.0⟩ = (1 : ℝ) := by
  obtain ⟨-, -, -, -, -, h6, h7, h8⟩ := sird_shape beta rho delta alpha lambda_
  obtain ⟨-, -, -, -, -, -, g7, g8, g9, g10⟩ := slird_shape beta rho delta alpha lambda_ gamma
  refine ⟨h6, h7, h8, ?_, g7, g8, g9, g10, ?_⟩
  · simp only [SirdState.total]; norm_num
  · simp only [SlirdState.total]; norm_num

/-- C9: for every simulation request the time grid is the 160-point
`linspace` over [0, 160]: 160 samples, starting at 0, ending at 160, strictly
increasing with constant spacing 160/159. -/
theorem time_grid_spec (beta rho delta alpha lambda_ gamma : ℝ) :
    (SIRD.update_graph beta rho delta alpha lambda_).t = linspace (0 : ℝ) 160 160 ∧
    (SLIRD.update_graph beta rho delta alpha lambda_ gamma).t = linspace (0 : ℝ) 160 160 ∧
    (linspace (0 : ℝ) 160 160).length = 160 ∧
    (linspace (0 : ℝ) 160 160).head? = some 0 ∧
    (linspace (0 : ℝ) 160 160).getLast? = some 160 ∧
    (∀ i : ℕ, i + 1 < 160 →
      (linspace (0 : ℝ) 160 160).getD i 0 < (linspace (0 : ℝ) 160 160).getD (i + 1) 0 ∧
      (linspace (0 : ℝ) 160 160).getD (i + 1) 0 - (linspace (0 : ℝ) 160 160).getD i 0
        = 160 / 159) := by
  refine ⟨rfl, rfl, linspace_length 0 160 160, linspace_head 0 160 159, tgrid_last, ?_⟩
  intro i hi
  rw [tgrid_getD i (by omega), tgrid_getD (i + 1) hi]
  constructor
  · refine mul_lt_mul_of_pos_right ?_ (by norm_num)
    push_cast
    linarith
  · push_cast
    ring

/-- C10: for every state, time and parameters, the components of the vector
returned by either derivative function sum to alpha − delta·I: the only net
population change is replenishment minus the mortality outflow, the beta,
rho, lambda and gamma terms cancelling pairwise. -/
theorem derivative_sum_net_flow (S L I R t beta rho delta alpha lambda_ gamma : ℝ) :
    SirdState.total (sird_model ⟨S, I, R⟩ t beta rho delta alpha lambda_)
      = alpha - delta * I ∧
    SlirdState.total (slird_model ⟨S, L, I, R⟩ t beta rho delta alpha lambda_ gamma)
      = alpha - delta * I := by
  constructor <;>
    (simp only [sird_model, slird_model, SirdState.total, SlirdState.total]; ring)
